import Mathlib

/-!
Verification of the print-up pipeline (`src/server.js`).

The file `server.js` polls a Supabase table `image_index` for the oldest
record with `printify_uploaded = false`, uploads the image to Printify by
URL, resolves a (print provider, variant) pair for the pinned blueprint 1,
submits a product-creation request, and marks the record processed only
when the creation call returned a success status.

The embedding below translates each function of `server.js` into a pure
Lean definition.  External effects (the Supabase query outcome, the upload
response, the catalog discovery responses, the creation status, the update
outcome) are supplied by an explicit environment value, so one pipeline
cycle (`uploadNextImageToPrintify`) becomes a total function from an
environment and a store to an outcome and an updated store.
-/

namespace PrintUp

/-- A row of the `image_index` table: `id`, `path`, `created_at`, and the
`printify_uploaded` flag (called `processed` here, matching the spec's
data model). -/
structure Record where
  id : Nat
  path : String
  created_at : Nat
  processed : Bool
deriving DecidableEq, Repr

/-- Set a record's `processed` flag to true (the `update` payload
`\x7b printify_uploaded: true \x7d`). -/
def setProcessed (r : Record) : Record :=
  ⟨r.id, r.path, r.created_at, true⟩

/-- The store write of lines 184-187: `update(\x7b printify_uploaded: true \x7d).eq('id', image.id)`
sets the flag true on every record whose `id` matches. -/
def markProcessed (id : Nat) (store : List Record) : List Record :=
  store.map (fun r => if r.id = id then setProcessed r else r)

/-- Keep the earlier of a candidate record and a currently best record,
preferring the candidate on equal `created_at`. -/
def keepEarlierMin (r : Record) : Option Record → Option Record
  | none => some r
  | some m => if r.created_at ≤ m.created_at then some r else some m

/-- First element of minimal `created_at` (ties resolved toward the earlier
list position, as a stable ascending sort followed by `limit(1)` would). -/
def minByCreated : List Record → Option Record
  | [] => none
  | r :: rs => keepEarlierMin r (minByCreated rs)

/-- The read of lines 104-109: `select(...).eq('printify_uploaded', false)
.order('created_at', ascending).limit(1)`, embedded over a list store with
stable-sort semantics for the external database's ordering. -/
def nextUnprocessed (store : List Record) : Option Record :=
  minByCreated (store.filter (fun r => !r.processed))

/-! ## Capability resolution (`getFirstValidVariant`, lines 79-98) -/

/-- The catalog service's discovery surface: templates ("blueprints") in
creation order, providers of a blueprint in the service's order, and
variants of a (blueprint, provider) pair in the service's order. -/
structure Catalog where
  blueprints : List Nat
  providers : Nat → List Nat
  variants : Nat → Nat → List Nat

/-- The pair returned by `getFirstValidVariant`. -/
structure Selection where
  providerId : Nat
  variantId : Nat
deriving DecidableEq, Repr

/-- Lines 79-98: fetch the providers of `blueprintId`, fail if the list is
empty, take the first; fetch the variants of (blueprint, first provider),
fail if empty, take the first. -/
def getFirstValidVariant (cat : Catalog) (blueprintId : Nat) : Except String Selection :=
  match cat.providers blueprintId with
  | [] => .error "No print providers found"
  | p :: _ =>
    match cat.variants blueprintId p with
    | [] => .error "No variants found for blueprint/provider"
    | v :: _ => .ok ⟨p, v⟩

/-- The number of catalog discovery queries one call to
`getFirstValidVariant` issues: the providers fetch always runs; the
variants fetch runs only when the providers check passed. -/
def getFirstValidVariantQueries (cat : Catalog) (blueprintId : Nat) : Nat :=
  match cat.providers blueprintId with
  | [] => 1
  | _ :: _ => 2

/-- Line 130: `const blueprintId = 1` — the pipeline pins blueprint 1. -/
def pinnedBlueprintId : Nat := 1

/-- Lines 130-131: the pipeline's whole capability resolution is one call
to `getFirstValidVariant` on the pinned blueprint. -/
def resolveCapability (cat : Catalog) : Except String Selection :=
  getFirstValidVariant cat pinnedBlueprintId

/-- Two sequential resolutions, each paired with the number of discovery
queries it issues.  `server.js` holds no module-level resolution cache, so
the second call is the same pure computation as the first. -/
def resolveTwice (cat : Catalog) (b : Nat) :
    (Except String Selection × Nat) × (Except String Selection × Nat) :=
  ((getFirstValidVariant cat b, getFirstValidVariantQueries cat b),
   (getFirstValidVariant cat b, getFirstValidVariantQueries cat b))

/-- Attempt `getFirstValidVariant` on each listed template in order,
short-circuiting on the first success. -/
def resolveAnyGo (cat : Catalog) : List Nat → Except String Selection
  | [] => .error "NoCapabilityError"
  | b :: bs =>
    match getFirstValidVariant cat b with
    | .ok s => .ok s
    | .error _ => resolveAnyGo cat bs

/-- Modelled from the spec: `resolveAny` as §4.3 describes it — enumerate
all templates in creation order, attempt `resolve` on each, short-circuit
on the first success, fail with `NoCapabilityError` when every template is
exhausted.  No such function exists in `server.js`; this definition
follows the spec's words and is only compared against `resolveCapability`. -/
def resolveAnySpec (cat : Catalog) : Except String Selection :=
  resolveAnyGo cat cat.blueprints

/-! ## Title derivation (lines 123-124) -/

/-- JS `\w`: ASCII letter, digit or underscore. -/
def isWordChar (c : Char) : Bool :=
  c.isAlphanum || c = '_'

/-- `path.split('/').pop()`: the characters after the last slash (the
accumulator is reset whenever a slash is read). -/
def basenameChars (acc : List Char) : List Char → List Char
  | [] => acc.reverse
  | c :: cs => if c = '/' then basenameChars [] cs else basenameChars (c :: acc) cs

/-- `path.split('/').pop()`: the part after the last slash. -/
def basename (p : String) : String :=
  (basenameChars [] p.toList).asString

/-- `replace(/\.[^/.]+$/, '')`: drop a trailing dot followed by one or
more characters none of which is a dot or a slash. -/
def stripExt (s : List Char) : List Char :=
  let r := s.reverse
  let t := r.takeWhile (fun c => c ≠ '.' && c ≠ '/')
  match r.drop t.length with
  | '.' :: rest => if t.isEmpty then s else rest.reverse
  | _ => s

/-- `replace(/[-_]/g, ' ')`. -/
def replaceSeps (s : List Char) : List Char :=
  s.map (fun c => if c = '-' || c = '_' then ' ' else c)

/-- `replace(/\b\w/g, l => l.toUpperCase())`: uppercase each word
character not preceded by a word character; the boolean argument records
whether the previous character was a word character. -/
def capWordStarts : Bool → List Char → List Char
  | _, [] => []
  | prevWord, c :: cs =>
    (if !prevWord && isWordChar c then c.toUpper else c) :: capWordStarts (isWordChar c) cs

/-- Line 124: the derived product title. -/
def deriveTitle (p : String) : String :=
  "Auto Product: " ++
    (capWordStarts false (replaceSeps (stripExt (basename p).toList))).asString

/-! ## Content transfer staging (`ensureTempDir`, `downloadImage`, lines 37-50) -/

/-- Line 35. -/
def TEMP_DIR : String := "./tmp"

/-- `path.join(d, f)` (Node also normalizes a leading "./", which no claim
depends on). -/
def joinPath (d f : String) : String := d ++ "/" ++ f

/-- Lines 37-41: `mkdir` the temp dir, swallowing the already-exists
error.  The state is the list of directories present. -/
def ensureTempDir (dirs : List String) : List String :=
  if TEMP_DIR ∈ dirs then dirs else dirs ++ [TEMP_DIR]

/-- Lines 43-50: fetch the url (`resOk` is `res.ok`), throw on failure,
otherwise write the bytes to `TEMP_DIR/filename` and return that path.
The file list is the staged files present on disk; no code path of
`server.js` ever removes an entry from it. -/
def downloadImage (resOk : Bool) (filename : String) (files : List String) :
    Except String (String × List String) :=
  if !resOk then .error "Image download failed"
  else
    let filePath := joinPath TEMP_DIR filename
    .ok (filePath, files ++ [filePath])

/-! ## Product composition (lines 135-173) -/

/-- One entry of `images`: lines 160-166. -/
structure ImagePlacement where
  imageId : String
  x : Nat
  y : Nat
  scale : Nat
  angle : Nat
deriving DecidableEq, Repr

/-- One entry of `placeholders`: lines 157-168. -/
structure Placeholder where
  position : String
  images : List ImagePlacement
deriving DecidableEq, Repr

/-- One entry of `print_areas`: lines 154-170. -/
structure PrintArea where
  variant_ids : List Nat
  placeholders : List Placeholder
deriving DecidableEq, Repr

/-- One entry of `variants`: lines 147-151. -/
structure ReqVariant where
  id : Nat
  price : Nat
  is_enabled : Bool
deriving DecidableEq, Repr

/-- The product-creation request body of lines 141-172. -/
structure ProductRequest where
  title : String
  description : String
  blueprint_id : Nat
  print_provider_id : Nat
  variants : List ReqVariant
  print_areas : List PrintArea
deriving DecidableEq, Repr

/-- Lines 141-172: the literal JSON body built for the creation call. -/
def composeProduct (title : String) (blueprintId : Nat) (sel : Selection)
    (imageId : String) : ProductRequest :=
  ⟨title, "Auto-generated product from Supabase", blueprintId, sel.providerId,
   [⟨sel.variantId, 2500, true⟩],
   [⟨[sel.variantId], [⟨"front", [⟨imageId, 0, 0, 1, 0⟩]⟩]⟩]⟩

/-! ## One pipeline cycle (`uploadNextImageToPrintify`, lines 100-197) -/

/-- The outcomes one cycle can end in.  Every constructor is a normal
return of the function: the whole body is wrapped in try/catch (lines
103 and 194-196), so no outcome aborts the process. -/
inductive CycleOutcome where
  | storeError
  | noRecord
  | transferError (msg : String)
  | capabilityError (msg : String)
  | submissionError
  | markError (productId : Nat)
  | success (productId : Nat)
deriving DecidableEq, Repr

/-- Whether an outcome is the one success outcome (creation confirmed and
the record marked). -/
def CycleOutcome.isSuccess : CycleOutcome → Bool
  | .success _ => true
  | _ => false

/-- Result of one cycle: the outcome, the store afterwards, and the
product-creation request submitted (when the cycle reached composition). -/
structure CycleResult where
  outcome : CycleOutcome
  store : List Record
  submitted : Option ProductRequest
deriving DecidableEq, Repr

/-- The remote world one cycle runs against: whether the store read
errors, the upload call's result, the catalog, whether the creation call
returns a success status, the created product id, and whether the
mark-processed update errors. -/
structure Env where
  storeReadFails : Bool
  uploadResult : Except String String
  catalog : Catalog
  createStatusOk : Bool
  createdProductId : Nat
  storeWriteFails : Bool

/-- Lines 100-197, `uploadNextImageToPrintify`, as a total function.  The
store is mutated only on the success path (lines 184-187), where the
selected record is marked processed; every error path returns the store
untouched, mirroring the early `return`s and the catch block. -/
def runCycle (env : Env) (store : List Record) : CycleResult :=
  if env.storeReadFails then ⟨.storeError, store, none⟩
  else
    match nextUnprocessed store with
    | none => ⟨.noRecord, store, none⟩
    | some image =>
      match env.uploadResult with
      | .error e => ⟨.transferError e, store, none⟩
      | .ok imageId =>
        match getFirstValidVariant env.catalog pinnedBlueprintId with
        | .error e => ⟨.capabilityError e, store, none⟩
        | .ok sel =>
          let req := composeProduct (deriveTitle image.path) pinnedBlueprintId sel imageId
          if env.createStatusOk = false then ⟨.submissionError, store, some req⟩
          else if env.storeWriteFails then ⟨.markError env.createdProductId, store, some req⟩
          else ⟨.success env.createdProductId, markProcessed image.id store, some req⟩

/-- Line 199: the cycle is re-run every interval; a trace is the store
after a list of cycles. -/
def runCycles (envs : List Env) (store : List Record) : List Record :=
  match envs with
  | [] => store
  | e :: es => runCycles es (runCycle e store).store

/-! ## Startup (lines 21-31) -/

/-- The four required environment variables. -/
structure Config where
  supabaseUrl : Option String
  supabaseServiceRole : Option String
  printifyApiKey : Option String
  printifyShopId : Option String

/-- Lines 28-31: the process exits iff a required variable is missing. -/
def startupExits (c : Config) : Bool :=
  c.supabaseUrl.isNone || c.supabaseServiceRole.isNone ||
    c.printifyApiKey.isNone || c.printifyShopId.isNone

/-- Startup then the cycle loop: `none` models `process.exit(1)`; with
configuration present the process runs every cycle to completion. -/
def runServer (cfg : Config) (envs : List Env) (store : List Record) :
    Option (List Record) :=
  if startupExits cfg then none else some (runCycles envs store)

/-! ## Concrete fixtures (used by witnesses and counterexamples) -/

/-- Catalog in which the pinned blueprint 1 has no providers while
blueprint 2 has provider 7 with variant 9. -/
def catFallback : Catalog :=
  ⟨[1, 2], fun b => if b = 2 then [7] else [], fun b p => if b = 2 && p = 7 then [9] else []⟩

/-- Catalog identical to `catFallback` at blueprint 1 (no providers) but
with no other template at all. -/
def catFallbackOther : Catalog :=
  ⟨[1], fun _ => [], fun _ _ => []⟩

/-- Catalog in which blueprint 1 has provider 5 with variant 11. -/
def catOk : Catalog :=
  ⟨[1], fun b => if b = 1 then [5] else [], fun b p => if b = 1 && p = 5 then [11] else []⟩

/-- An unprocessed record. -/
def record1 : Record := ⟨1, "generated-images/sunset-beach_01.png", 5, false⟩

/-- An already processed record, older position but later `created_at`
does not matter: its flag is true. -/
def record2 : Record := ⟨2, "generated-images/dunes.png", 3, true⟩

/-- A store holding one processed and one unprocessed record. -/
def store1 : List Record := [record2, record1]

/-- A store in which every record is processed. -/
def storeDone : List Record := [record2]

/-- Environment for a fully successful cycle. -/
def envOk : Env := ⟨false, Except.ok "img9", catOk, true, 77, false⟩

/-- Environment whose product-creation call returns a non-success status. -/
def envCreateFail : Env := ⟨false, Except.ok "img9", catOk, false, 77, false⟩

/-- Configuration with every required variable present. -/
def cfgOk : Config := ⟨some "u", some "r", some "k", some "s"⟩

/-- Configuration missing the API key. -/
def cfgBad : Config := ⟨some "u", some "r", none, some "s"⟩

/-! ## Helper lemmas -/

theorem minByCreated_eq_none (l : List Record) : minByCreated l = none ↔ l = [] := by
  cases l with
  | nil => simp [minByCreated]
  | cons r rs =>
    simp only [minByCreated]
    constructor
    · intro h
      exfalso
      cases ht : minByCreated rs with
      | none => rw [ht] at h; simp [keepEarlierMin] at h
      | some m =>
        rw [ht] at h
        by_cases hle : r.created_at ≤ m.created_at <;> simp [keepEarlierMin, hle] at h
    · intro h
      exact absurd h (List.cons_ne_nil r rs)

theorem minByCreated_le (l : List Record) (r : Record) (h : minByCreated l = some r) :
    ∀ x ∈ l, r.created_at ≤ x.created_at := by
  induction l generalizing r with
  | nil => simp [minByCreated] at h
  | cons a t ih =>
    simp only [minByCreated] at h
    cases ht : minByCreated t with
    | none =>
      rw [ht] at h
      obtain rfl : a = r := by simpa [keepEarlierMin] using h
      have : t = [] := (minByCreated_eq_none t).mp ht
      subst this
      simp
    | some m =>
      rw [ht] at h
      have ihm := ih m ht
      by_cases hle : a.created_at ≤ m.created_at
      · obtain rfl : a = r := by simpa [keepEarlierMin, hle] using h
        intro x hx
        rcases List.mem_cons.mp hx with rfl | hx
        · exact Nat.le_refl _
        · exact Nat.le_trans hle (ihm x hx)
      · obtain rfl : m = r := by simpa [keepEarlierMin, hle] using h
        intro x hx
        rcases List.mem_cons.mp hx with rfl | hx
        · exact Nat.le_of_lt (Nat.lt_of_not_le hle)
        · exact ihm x hx

theorem minByCreated_first (l : List Record) (r : Record) (h : minByCreated l = some r) :
    ∃ i, l.get? i = some r ∧
      ∀ j x, j < i → l.get? j = some x → r.created_at < x.created_at := by
  induction l generalizing r with
  | nil => simp [minByCreated] at h
  | cons a t ih =>
    simp only [minByCreated] at h
    cases ht : minByCreated t with
    | none =>
      rw [ht] at h
      obtain rfl : a = r := by simpa [keepEarlierMin] using h
      exact ⟨0, rfl, by omega⟩
    | some m =>
      rw [ht] at h
      by_cases hle : a.created_at ≤ m.created_at
      · obtain rfl : a = r := by simpa [keepEarlierMin, hle] using h
        exact ⟨0, rfl, by omega⟩
      · obtain rfl : m = r := by simpa [keepEarlierMin, hle] using h
        obtain ⟨i, hi, hfirst⟩ := ih m ht
        refine ⟨i + 1, by simpa using hi, ?_⟩
        intro j x hj hx
        cases j with
        | zero =>
          obtain rfl : a = x := by simpa using hx
          exact Nat.lt_of_not_le hle
        | succ j' =>
          exact hfirst j' x (by omega) (by simpa using hx)

theorem minByCreated_mem (l : List Record) (r : Record) (h : minByCreated l = some r) :
    r ∈ l := by
  obtain ⟨i, hi, _⟩ := minByCreated_first l r h
  exact List.get?_mem hi

theorem nextUnprocessed_none_iff (store : List Record) :
    nextUnprocessed store = none ↔ ∀ r ∈ store, r.processed = true := by
  unfold nextUnprocessed
  rw [minByCreated_eq_none, List.filter_eq_nil_iff]
  constructor
  · intro h r hr
    have := h r hr
    simpa using this
  · intro h r hr
    simp [h r hr]

theorem nextUnprocessed_some (store : List Record) (r : Record)
    (h : nextUnprocessed store = some r) :
    r ∈ store ∧ r.processed = false := by
  have hm := minByCreated_mem _ _ h
  have := List.mem_filter.mp hm
  exact ⟨this.1, by simpa using this.2⟩

theorem nextUnprocessed_min (store : List Record) (r : Record)
    (h : nextUnprocessed store = some r) :
    ∀ x ∈ store, x.processed = false → r.created_at ≤ x.created_at := by
  intro x hx hpx
  exact minByCreated_le _ _ h x (List.mem_filter.mpr ⟨hx, by simp [hpx]⟩)

theorem markProcessed_get? (id : Nat) (store : List Record) (i : Nat) :
    (markProcessed id store).get? i =
      (store.get? i).map (fun r => if r.id = id then setProcessed r else r) := by
  simp [markProcessed, List.getElem?_map, List.get?_eq_getElem?]

theorem markProcessed_processed_true (id : Nat) (store : List Record) (i : Nat)
    (h : (store.get? i).map Record.processed = some true) :
    ((markProcessed id store).get? i).map Record.processed = some true := by
  rw [markProcessed_get?]
  cases hg : store.get? i with
  | none => rw [hg, Option.map_none'] at h; exact Option.noConfusion h
  | some r =>
    rw [hg] at h
    have hr : r.processed = true := by simpa using h
    by_cases hid : r.id = id <;> simp [hid, setProcessed, hr]

theorem runCycle_store_eq_or (env : Env) (store : List Record) :
    (runCycle env store).store = store ∨
    (env.createStatusOk = true ∧ ∃ r, nextUnprocessed store = some r ∧
      (runCycle env store).store = markProcessed r.id store ∧
      (runCycle env store).outcome = CycleOutcome.success env.createdProductId) := by
  unfold runCycle
  by_cases h1 : env.storeReadFails = true
  · simp [h1]
  · rw [if_neg h1]
    cases hn : nextUnprocessed store with
    | none => simp
    | some image =>
      cases hu : env.uploadResult with
      | error e => simp
      | ok imageId =>
        cases hg : getFirstValidVariant env.catalog pinnedBlueprintId with
        | error e => simp
        | ok sel =>
          dsimp only
          by_cases hc : env.createStatusOk = false
          · simp [hc]
          · rw [if_neg hc]
            have hc' : env.createStatusOk = true := by
              cases hcv : env.createStatusOk
              · exact absurd hcv hc
              · rfl
            by_cases hw : env.storeWriteFails = true
            · simp [hw]
            · rw [if_neg hw]
              right
              exact ⟨hc', image, rfl, rfl, rfl⟩

theorem runCycle_store_unchanged_of_not_success (env : Env) (store : List Record)
    (h : ∀ pid, (runCycle env store).outcome ≠ CycleOutcome.success pid) :
    (runCycle env store).store = store := by
  rcases runCycle_store_eq_or env store with heq | ⟨_, r, _, _, hout⟩
  · exact heq
  · exact absurd hout (h env.createdProductId)

theorem runCycle_processed_monotone (env : Env) (store : List Record) (i : Nat)
    (h : (store.get? i).map Record.processed = some true) :
    ((runCycle env store).store.get? i).map Record.processed = some true := by
  rcases runCycle_store_eq_or env store with heq | ⟨_, r, _, heq, _⟩
  · rw [heq]; exact h
  · rw [heq]; exact markProcessed_processed_true r.id store i h

theorem runCycles_processed_monotone (envs : List Env) (store : List Record) (i : Nat)
    (h : (store.get? i).map Record.processed = some true) :
    ((runCycles envs store).get? i).map Record.processed = some true := by
  induction envs generalizing store with
  | nil => exact h
  | cons e es ih => exact ih _ (runCycle_processed_monotone e store i h)

theorem runCycle_submitted_eq (env : Env) (store : List Record) (req : ProductRequest)
    (h : (runCycle env store).submitted = some req) :
    ∃ image imageId sel, nextUnprocessed store = some image ∧
      env.uploadResult = Except.ok imageId ∧
      getFirstValidVariant env.catalog pinnedBlueprintId = Except.ok sel ∧
      req = composeProduct (deriveTitle image.path) pinnedBlueprintId sel imageId := by
  unfold runCycle at h
  by_cases h1 : env.storeReadFails = true
  · rw [if_pos h1] at h
    exact absurd h (by simp)
  · rw [if_neg h1] at h
    cases hn : nextUnprocessed store with
    | none => rw [hn] at h; exact absurd h (by simp)
    | some image =>
      rw [hn] at h
      cases hu : env.uploadResult with
      | error e => rw [hu] at h; exact absurd h (by simp)
      | ok imageId =>
        rw [hu] at h
        cases hg : getFirstValidVariant env.catalog pinnedBlueprintId with
        | error e => rw [hg] at h; exact absurd h (by simp)
        | ok sel =>
          rw [hg] at h
          dsimp only at h
          refine ⟨image, imageId, sel, rfl, rfl, rfl, ?_⟩
          by_cases hc : env.createStatusOk = false
          · rw [if_pos hc] at h
            have h' : some (composeProduct (deriveTitle image.path) pinnedBlueprintId sel imageId) =
                some req := h
            exact (Option.some.inj h').symm
          · rw [if_neg hc] at h
            by_cases hw : env.storeWriteFails = true
            · rw [if_pos hw] at h
              have h' : some (composeProduct (deriveTitle image.path) pinnedBlueprintId sel imageId) =
                  some req := h
              exact (Option.some.inj h').symm
            · rw [if_neg hw] at h
              have h' : some (composeProduct (deriveTitle image.path) pinnedBlueprintId sel imageId) =
                  some req := h
              exact (Option.some.inj h').symm

theorem runCycle_store_unchanged_of_isSuccess_false (env : Env) (store : List Record)
    (h : (runCycle env store).outcome.isSuccess = false) :
    (runCycle env store).store = store := by
  rcases runCycle_store_eq_or env store with heq | ⟨_, r, _, _, hout⟩
  · exact heq
  · rw [hout] at h
    exact absurd h (by simp [CycleOutcome.isSuccess])

/-! ## Claims -/

/-- Claim C1: a record's `processed` flag is monotone — once true it stays
true through any trace of cycles — and a cycle changes the store at all
only when the product-creation call was confirmed successful, in which
case the one record it marks is the selected record, whose flag was false. -/
theorem C1_processed_flag (envs : List Env) (env : Env) (store : List Record) :
    (∀ i, (store.get? i).map Record.processed = some true →
      ((runCycles envs store).get? i).map Record.processed = some true) ∧
    ((runCycle env store).store ≠ store →
      env.createStatusOk = true ∧
      ∃ r, nextUnprocessed store = some r ∧ r.processed = false ∧
        (runCycle env store).store = markProcessed r.id store) := by
  constructor
  · intro i h
    exact runCycles_processed_monotone envs store i h
  · intro hne
    rcases runCycle_store_eq_or env store with heq | ⟨hc, r, hn, heq, _⟩
    · exact absurd heq hne
    · exact ⟨hc, r, hn, (nextUnprocessed_some store r hn).2, heq⟩

/-- Witness for C1 at a concrete store and environment: the processed
record stays processed over a successful cycle, and the successful cycle's
store change marks exactly the selected unprocessed record. -/
theorem C1_processed_flag_witness :
    (((runCycles [envOk] store1).get? 0).map Record.processed = some true) ∧
    (envOk.createStatusOk = true ∧
      ∃ r, nextUnprocessed store1 = some r ∧ r.processed = false ∧
        (runCycle envOk store1).store = markProcessed r.id store1) :=
  ⟨(C1_processed_flag [envOk] envOk store1).1 0 (by decide),
   (C1_processed_flag [envOk] envOk store1).2 (by decide)⟩

/-- Claim C2: `nextUnprocessed` returns none exactly when no unprocessed
record exists; otherwise it returns a member of the store whose flag is
false, whose `created_at` is minimal among unprocessed records, and which
is the first-listed among unprocessed records achieving that minimum (the
stable tie-break). -/
theorem C2_nextUnprocessed_spec (store : List Record) :
    (nextUnprocessed store = none ↔ ∀ r ∈ store, r.processed = true) ∧
    (∀ r, nextUnprocessed store = some r →
      r ∈ store ∧ r.processed = false ∧
      (∀ x ∈ store, x.processed = false → r.created_at ≤ x.created_at) ∧
      ∃ i, (store.filter (fun x => !x.processed)).get? i = some r ∧
        ∀ j x, j < i → (store.filter (fun x => !x.processed)).get? j = some x →
          r.created_at < x.created_at) := by
  refine ⟨nextUnprocessed_none_iff store, ?_⟩
  intro r h
  obtain ⟨hmem, hproc⟩ := nextUnprocessed_some store r h
  exact ⟨hmem, hproc, nextUnprocessed_min store r h, minByCreated_first _ r h⟩

/-- Witness for C2: an all-processed store yields none, and on `store1`
the unprocessed record is returned with its minimality facts. -/
theorem C2_nextUnprocessed_witness :
    nextUnprocessed storeDone = none ∧
    (record1 ∈ store1 ∧ record1.processed = false ∧
      (∀ x ∈ store1, x.processed = false → record1.created_at ≤ x.created_at) ∧
      ∃ i, (store1.filter (fun x => !x.processed)).get? i = some record1 ∧
        ∀ j x, j < i → (store1.filter (fun x => !x.processed)).get? j = some x →
          record1.created_at < x.created_at) :=
  ⟨(C2_nextUnprocessed_spec storeDone).1.mpr (by decide),
   (C2_nextUnprocessed_spec store1).2 record1 (by decide)⟩

/-- Claim C3: a cycle that fails at transfer, at capability resolution, or
with a non-success creation status leaves the store unmodified, the
selected record's flag stays false, and the next selection still returns
that same record. -/
theorem C3_failed_cycle_frame (env : Env) (store : List Record) (r : Record)
    (hsel : nextUnprocessed store = some r)
    (hfail : (runCycle env store).outcome = CycleOutcome.submissionError ∨
      (∃ e, (runCycle env store).outcome = CycleOutcome.transferError e) ∨
      (∃ e, (runCycle env store).outcome = CycleOutcome.capabilityError e)) :
    (runCycle env store).store = store ∧ r.processed = false ∧
      nextUnprocessed (runCycle env store).store = some r := by
  have hns : (runCycle env store).outcome.isSuccess = false := by
    rcases hfail with h | ⟨e, h⟩ | ⟨e, h⟩ <;> rw [h] <;> rfl
  have heq := runCycle_store_unchanged_of_isSuccess_false env store hns
  refine ⟨heq, (nextUnprocessed_some store r hsel).2, ?_⟩
  rw [heq]
  exact hsel

/-- Witness for C3: with a non-success creation status on `store1`, the
store is unchanged and the same record is re-selected. -/
theorem C3_failed_cycle_frame_witness :
    (runCycle envCreateFail store1).store = store1 ∧ record1.processed = false ∧
      nextUnprocessed (runCycle envCreateFail store1).store = some record1 :=
  C3_failed_cycle_frame envCreateFail store1 record1 (by decide) (Or.inl (by decide))

/-- Counterexample to claim C4: in `catFallback`, template 2 has a
provider and a variant (so not every template is exhausted), yet the
pipeline's resolution — pinned to blueprint 1 — fails outright instead of
enumerating the catalog as the spec's `resolveAny` would. -/
theorem C4_counterexample :
    (∃ b, b ∈ catFallback.blueprints ∧ catFallback.providers b ≠ [] ∧
      catFallback.variants b ((catFallback.providers b).headD 0) ≠ []) ∧
    resolveCapability catFallback = Except.error "No print providers found" ∧
    resolveAnySpec catFallback = Except.ok ⟨7, 9⟩ :=
  ⟨⟨2, by decide, by decide, by decide⟩, rfl, rfl⟩

/-- Claim C4 as amended: resolution is pinned to blueprint 1 and consults
no other template — it depends only on blueprint 1's providers and
variants, and fails immediately when blueprint 1 has no providers. -/
theorem C4_amended_pinned_only (cat cat' : Catalog)
    (hp : cat.providers pinnedBlueprintId = cat'.providers pinnedBlueprintId)
    (hv : ∀ p, cat.variants pinnedBlueprintId p = cat'.variants pinnedBlueprintId p) :
    resolveCapability cat = resolveCapability cat' ∧
    (cat.providers pinnedBlueprintId = [] →
      resolveCapability cat = Except.error "No print providers found") := by
  constructor
  · unfold resolveCapability getFirstValidVariant
    rw [hp]
    cases hcp : cat'.providers pinnedBlueprintId with
    | nil => rfl
    | cons p ps =>
      dsimp only
      rw [hv p]
  · intro h
    unfold resolveCapability getFirstValidVariant
    rw [h]

/-- Witness for the amended C4: two catalogs that agree on blueprint 1 but
differ everywhere else resolve identically, and empty providers for
blueprint 1 fail resolution. -/
theorem C4_amended_pinned_only_witness :
    resolveCapability catFallback = resolveCapability catFallbackOther ∧
    (catFallback.providers pinnedBlueprintId = [] →
      resolveCapability catFallback = Except.error "No print providers found") :=
  C4_amended_pinned_only catFallback catFallbackOther rfl (fun _ => rfl)

/-- Counterexample to claim C5: after a first successful resolution on
`catOk`, the second sequential call still issues two discovery queries —
not zero — because `server.js` keeps no resolution cache. -/
theorem C5_counterexample :
    (resolveTwice catOk 1).1.1 = Except.ok ⟨5, 11⟩ ∧
    ¬(resolveTwice catOk 1).2.2 = 0 ∧
    (resolveTwice catOk 1).2.2 = 2 :=
  ⟨rfl, by decide, rfl⟩

/-- Claim C5 as amended: no caching exists — every call to
`getFirstValidVariant` issues at least one discovery query (two when the
template has providers), and a second sequential call repeats exactly the
first call's queries and result. -/
theorem C5_amended_no_cache (cat : Catalog) (b : Nat) (h : cat.providers b ≠ []) :
    getFirstValidVariantQueries cat b = 2 ∧
    (resolveTwice cat b).2 = (resolveTwice cat b).1 ∧
    1 ≤ getFirstValidVariantQueries cat b := by
  refine ⟨?_, rfl, ?_⟩
  · unfold getFirstValidVariantQueries
    cases hcp : cat.providers b with
    | nil => exact absurd hcp h
    | cons p ps => rfl
  · unfold getFirstValidVariantQueries
    cases hcp : cat.providers b with
    | nil => exact Nat.le_refl 1
    | cons p ps => exact Nat.le_succ 1

/-- Witness for the amended C5 at `catOk`. -/
theorem C5_amended_no_cache_witness :
    getFirstValidVariantQueries catOk 1 = 2 ∧
    (resolveTwice catOk 1).2 = (resolveTwice catOk 1).1 ∧
    1 ≤ getFirstValidVariantQueries catOk 1 :=
  C5_amended_no_cache catOk 1 (by decide)

/-- Claim C6: on every call, `getFirstValidVariant` fails when the
provider query is empty, fails when the variant query for (template,
first provider) is empty, and otherwise returns the first provider in the
catalog's order paired with the first variant in the catalog's order. -/
theorem C6_first_provider_first_variant (cat : Catalog) (b : Nat) :
    (cat.providers b = [] →
      getFirstValidVariant cat b = Except.error "No print providers found") ∧
    (∀ p ps, cat.providers b = p :: ps → cat.variants b p = [] →
      getFirstValidVariant cat b = Except.error "No variants found for blueprint/provider") ∧
    (∀ p ps v vs, cat.providers b = p :: ps → cat.variants b p = v :: vs →
      getFirstValidVariant cat b = Except.ok ⟨p, v⟩) := by
  refine ⟨?_, ?_, ?_⟩
  · intro h
    unfold getFirstValidVariant
    rw [h]
  · intro p ps hp hv
    unfold getFirstValidVariant
    rw [hp]
    dsimp only
    rw [hv]
  · intro p ps v vs hp hv
    unfold getFirstValidVariant
    rw [hp]
    dsimp only
    rw [hv]

/-- Witness for C6 at `catOk`: provider 5 and variant 11 are selected. -/
theorem C6_first_provider_first_variant_witness :
    getFirstValidVariant catOk 1 = Except.ok ⟨5, 11⟩ :=
  (C6_first_provider_first_variant catOk 1).2.2 5 [] 11 [] rfl rfl

/-- Claim C7: the derived title of `generated-images/sunset-beach_01.png`
is the fixed label followed by `Sunset Beach 01` — extension stripped,
separators replaced by spaces, each word capitalized. -/
theorem C7_title_derivation :
    deriveTitle "generated-images/sunset-beach_01.png" = "Auto Product: Sunset Beach 01" := by
  decide

/-- Claim C8: the process exits only on missing startup configuration;
with configuration present every cycle of the loop runs to completion,
and any cycle whose outcome is not the success outcome (the four error
classes and the no-work case) leaves the store unchanged — the record is
not marked processed. -/
theorem C8_errors_recovered (cfg : Config) (envs : List Env) (env : Env)
    (store : List Record) :
    (runServer cfg envs store = none ↔ startupExits cfg = true) ∧
    (startupExits cfg = false → runServer cfg envs store = some (runCycles envs store)) ∧
    ((runCycle env store).outcome.isSuccess = false →
      (runCycle env store).store = store) := by
  refine ⟨?_, ?_, runCycle_store_unchanged_of_isSuccess_false env store⟩
  · unfold runServer
    by_cases h : startupExits cfg = true
    · simp [h]
    · simp [h]
  · intro h
    unfold runServer
    rw [h]
    rfl

/-- Witness for C8: the bad configuration exits, the good one runs the
loop, and a submission-failure cycle leaves the store unchanged. -/
theorem C8_errors_recovered_witness :
    runServer cfgBad [envOk] store1 = none ∧
    runServer cfgOk [envOk] store1 = some (runCycles [envOk] store1) ∧
    (runCycle envCreateFail store1).store = store1 :=
  ⟨(C8_errors_recovered cfgBad [envOk] envOk store1).1.mpr (by decide),
   (C8_errors_recovered cfgOk [envOk] envOk store1).2.1 (by decide),
   (C8_errors_recovered cfgOk [envOk] envCreateFail store1).2.2 (by decide)⟩

/-- Claim C9 evaluation at the failing input: a successful `downloadImage`
of `sunset.png` into an empty temp dir returns with the staged file still
present in the filesystem state — `server.js` contains no cleanup on any
exit path — while a failed download throws before staging anything. -/
theorem C9_staged_file_persists :
    downloadImage true "sunset.png" [] =
      Except.ok ("./tmp/sunset.png", ["./tmp/sunset.png"]) ∧
    downloadImage false "sunset.png" [] = Except.error "Image download failed" :=
  ⟨rfl, rfl⟩

/-- Claim C10: whatever request a cycle submits to the product-creation
surface carries exactly one variant entry with price 2500 and enabled
true, and exactly one placement at position `front` whose single image is
the uploaded content id with offset 0, 0, scale 1 and angle 0. -/
theorem C10_request_shape (env : Env) (store : List Record) (req : ProductRequest)
    (h : (runCycle env store).submitted = some req) :
    ∃ imageId, env.uploadResult = Except.ok imageId ∧
      ∃ v, req.variants = [⟨v, 2500, true⟩] ∧
        req.print_areas = [⟨[v], [⟨"front", [⟨imageId, 0, 0, 1, 0⟩]⟩]⟩] := by
  obtain ⟨image, imageId, sel, hn, hu, hg, hreq⟩ := runCycle_submitted_eq env store req h
  subst hreq
  exact ⟨imageId, hu, sel.variantId, rfl, rfl⟩

/-- Witness for C10: the request submitted by the successful concrete
cycle has the fixed shape. -/
theorem C10_request_shape_witness :
    ∃ imageId, envOk.uploadResult = Except.ok imageId ∧
      ∃ v, (composeProduct (deriveTitle record1.path) pinnedBlueprintId ⟨5, 11⟩ "img9").variants =
          [⟨v, 2500, true⟩] ∧
        (composeProduct (deriveTitle record1.path) pinnedBlueprintId ⟨5, 11⟩ "img9").print_areas =
          [⟨[v], [⟨"front", [⟨imageId, 0, 0, 1, 0⟩]⟩]⟩] :=
  C10_request_shape envOk store1
    (composeProduct (deriveTitle record1.path) pinnedBlueprintId ⟨5, 11⟩ "img9") rfl

end PrintUp
